import Mathlib

/-!
Verification development for the KiCad Cairo graphics abstraction layer
(`common/gal/cairo/cairo_gal.cpp`) and the board-item plotter
(`pcbnew/plot_brditems_plotter.cpp`).

The C++ sources are shallowly embedded: member functions become Lean
functions over an explicit state record, colours and coordinates become
rationals, and the cairo drawing library (an external dependency) is
modelled by its documented contract: a current path, a current source
colour, a current line width, a log of transform operations, and fill /
stroke operations that paint the current path and (in their non-preserve
variants) clear it.
-/

namespace Cairo

/-- KIGFX::COLOR4D: four components, each nominally in [0,1]. -/
structure COLOR4D where
  r : ℚ
  g : ℚ
  b : ℚ
  a : ℚ
deriving DecidableEq, Repr

/-- cairo_set_source_rgb: like rgba with alpha forced to fully opaque. -/
def setSourceRgb (c : COLOR4D) : COLOR4D :=
  ⟨c.r, c.g, c.b, 1⟩

/-- Elements of a cairo path, as produced by the embedded CAIRO_GAL
primitives.  Arc angles are recorded in units of pi (DrawCircle uses the
constants 0 and 2*pi, which we record as 0 and 2). -/
inductive PathElem where
  | moveTo (p : ℚ × ℚ)
  | lineTo (p : ℚ × ℚ)
  | arc (c : ℚ × ℚ) (radius a1 a2 : ℚ)
  | rect (corner : ℚ × ℚ) (size : ℚ × ℚ)
  | closePath
deriving DecidableEq, Repr

/-- Log entry for the cairo current transformation matrix.  cairo is an
external library; we model its CTM by the sequence of transform calls
made on the context (two contexts that underwent the same calls have the
same CTM).  worldScreen records the cairo_set_matrix call made in
initSurface with the world-to-screen matrix. -/
inductive CtxXform where
  | rotate (angle : ℚ)
  | translate (x y : ℚ)
  | scale (sx sy : ℚ)
  | worldScreen
deriving DecidableEq, Repr

/-- Whether a painting operation was a cairo fill or a cairo stroke. -/
inductive RKind where
  | fill
  | stroke
deriving DecidableEq, Repr

/-- The two compositor buffers (TARGET_CACHED and TARGET_NONCACHED both
map to the main buffer). -/
inductive CBuffer where
  | main
  | overlay
deriving DecidableEq, Repr

/-- KIGFX::RENDER_TARGET. -/
inductive RENDER_TARGET where
  | cached
  | noncached
  | overlay
deriving DecidableEq, Repr

/-- One painting operation performed on the surface: the path painted,
the CTM log, the source colour, the line width of the context and the
buffer selected at the time. -/
structure RenderOp where
  kind : RKind
  path : List PathElem
  xform : List CtxXform
  source : COLOR4D
  width : ℚ
  buffer : CBuffer
deriving DecidableEq, Repr

/-- GROUP_ELEMENT from cairo_gal.h: a command tag plus its operands.
CMD_STROKE_PATH / CMD_FILL_PATH carry the cairo path copied at record
time. -/
inductive GROUP_ELEMENT where
  | cmdSetFill (b : Bool)
  | cmdSetStroke (b : Bool)
  | cmdSetFillColor (r g b a : ℚ)
  | cmdSetStrokeColor (r g b a : ℚ)
  | cmdSetLineWidth (w : ℚ)
  | cmdStrokePath (path : List PathElem)
  | cmdFillPath (path : List PathElem)
  | cmdRotate (angle : ℚ)
  | cmdTranslate (x y : ℚ)
  | cmdScale (sx sy : ℚ)
  | cmdSave
  | cmdRestore
  | cmdCallGroup (group : Int)
deriving DecidableEq, Repr

/-- GROUP = std::deque of GROUP_ELEMENT. -/
abbrev GROUP := List GROUP_ELEMENT

/-- The group table std::map of cairo_gal.h, as an association list with
unique keys. -/
abbrev GroupTable := List (Int × GROUP)

/-- std::map::find. -/
def tblFind (t : GroupTable) (k : Int) : Option GROUP :=
  match t with
  | [] => none
  | e :: rest => if e.1 = k then some e.2 else tblFind rest k

/-- std::map::operator[]: returns the mapped deque, default-inserting an
empty one when the key is absent.  The pair is (value, updated map). -/
def tblIndex (t : GroupTable) (k : Int) : GROUP × GroupTable :=
  match tblFind t k with
  | some g => (g, t)
  | none => ([], t ++ [(k, [])])

/-- Replace the deque stored at an existing key. -/
def tblSet (t : GroupTable) (k : Int) (g : GROUP) : GroupTable :=
  t.map (fun e => if e.1 = k then (e.1, g) else e)

/-- std::map::erase by key. -/
def tblErase (t : GroupTable) (k : Int) : GroupTable :=
  t.filter (fun e => e.1 ≠ k)

/-- push_back through the currentGroup pointer. -/
def tblPush (t : GroupTable) (k : Int) (e : GROUP_ELEMENT) : GroupTable :=
  t.map (fun en => if en.1 = k then (en.1, en.2 ++ [e]) else en)

/-- The state of a CAIRO_GAL object together with its cairo context and
the record of everything painted on the surface.  currentGroupKey models
the currentGroup pointer (the key of the map entry it points into);
assertFailed records a fired wxASSERT. -/
structure CAIRO_GAL where
  isGrouping : Bool
  isInitialized : Bool
  validCompositor : Bool
  assertFailed : Bool
  groupCounter : Nat
  groups : GroupTable
  currentGroupKey : Option Int
  isElementAdded : Bool
  isFillEnabled : Bool
  isStrokeEnabled : Bool
  fillColor : COLOR4D
  strokeColor : COLOR4D
  backgroundColor : COLOR4D
  lineWidth : ℚ
  layerDepth : ℚ
  screenSize : ℚ × ℚ
  ctxPath : List PathElem
  ctxSource : COLOR4D
  ctxLineWidth : ℚ
  ctxXform : List CtxXform
  ctxSaveStack : List (COLOR4D × ℚ × List CtxXform)
  currentTarget : RENDER_TARGET
  compositorBuffer : CBuffer
  output : List RenderOp
deriving DecidableEq, Repr

/-- cairo_device_to_user_distance(1,1) followed by min(|x|,|y|): the
user-space size of one device pixel under the current CTM.  We model it
from the transform log (scales divide it; rotations and translations are
treated as isometries; the numeric value is never relied on by a
claim). -/
def minUserUnit (l : List CtxXform) : ℚ :=
  l.foldl
    (fun acc x =>
      match x with
      | CtxXform.scale sx sy => acc / min |sx| |sy|
      | _ => acc) 1

/-- Paint the current path with the current source on the selected
buffer (the path-preserving part of cairo_fill/cairo_stroke). -/
def emitOp (s : CAIRO_GAL) (k : RKind) : CAIRO_GAL :=
  {s with output := s.output ++
    [⟨k, s.ctxPath, s.ctxXform, s.ctxSource, s.ctxLineWidth, s.compositorBuffer⟩]}

/-- CAIRO_GAL::flushPath: fill (preserving the path when a stroke
follows, else consuming it) then stroke (consuming the path), each only
when the corresponding flag is enabled, with set_source_rgba before
each. -/
def flushPath (s : CAIRO_GAL) : CAIRO_GAL :=
  let s1 :=
    if s.isFillEnabled then
      let sf := emitOp {s with ctxSource := s.fillColor} RKind.fill
      if s.isStrokeEnabled then sf else {sf with ctxPath := []}
    else s
  if s1.isStrokeEnabled then
    let ss := emitOp {s1 with ctxSource := s1.strokeColor} RKind.stroke
    {ss with ctxPath := []}
  else s1

/-- Append a command to the group currentGroup points at. -/
def pushGroup (s : CAIRO_GAL) (e : GROUP_ELEMENT) : CAIRO_GAL :=
  match s.currentGroupKey with
  | some k => {s with groups := tblPush s.groups k e}
  | none => s

/-- CAIRO_GAL::storePath: when an element is pending, either paint it
with rgb sources (fill_preserve / stroke_preserve) when not grouping, or
record it as CMD_STROKE_PATH / CMD_FILL_PATH commands carrying a copy of
the current path when grouping; in both cases finish with
cairo_new_path. -/
def storePath (s : CAIRO_GAL) : CAIRO_GAL :=
  if s.isElementAdded then
    let s0 := {s with isElementAdded := false}
    let s1 :=
      if !s0.isGrouping then
        let sA :=
          if s0.isFillEnabled then
            emitOp {s0 with ctxSource := setSourceRgb s0.fillColor} RKind.fill
          else s0
        if sA.isStrokeEnabled then
          emitOp {sA with ctxSource := setSourceRgb sA.strokeColor} RKind.stroke
        else sA
      else
        let sA :=
          if s0.isStrokeEnabled then
            pushGroup s0 (GROUP_ELEMENT.cmdStrokePath s0.ctxPath)
          else s0
        if sA.isFillEnabled then
          pushGroup sA (GROUP_ELEMENT.cmdFillPath sA.ctxPath)
        else sA
    {s1 with ctxPath := []}
  else s

/-- CAIRO_GAL::Flush. -/
def Flush (s : CAIRO_GAL) : CAIRO_GAL :=
  storePath s

/-- CAIRO_GAL::ClearScreen: set rgb source to the colour, add a
screen-sized rectangle, cairo_fill (which consumes the path). -/
def ClearScreen (aColor : COLOR4D) (s : CAIRO_GAL) : CAIRO_GAL :=
  let s1 := {s with backgroundColor := aColor, ctxSource := setSourceRgb aColor}
  let s2 := {s1 with ctxPath := s1.ctxPath ++ [PathElem.rect (0, 0) s1.screenSize]}
  let s3 := emitOp s2 RKind.fill
  {s3 with ctxPath := []}

/-- CAIRO_GAL::DrawLine: move_to, line_to, flushPath, mark element
added. -/
def DrawLine (aStartPoint aEndPoint : ℚ × ℚ) (s : CAIRO_GAL) : CAIRO_GAL :=
  let s1 := {s with ctxPath := s.ctxPath ++
      [PathElem.moveTo aStartPoint, PathElem.lineTo aEndPoint]}
  {flushPath s1 with isElementAdded := true}

/-- CAIRO_GAL::DrawCircle: new_sub_path, arc over the full turn (angles
0 and 2*pi, recorded in units of pi), flushPath, mark element added. -/
def DrawCircle (aCenterPoint : ℚ × ℚ) (aRadius : ℚ) (s : CAIRO_GAL) : CAIRO_GAL :=
  let s1 := {s with ctxPath := s.ctxPath ++ [PathElem.arc aCenterPoint aRadius 0 2]}
  {flushPath s1 with isElementAdded := true}

/-- CAIRO_GAL::DrawRectangle: four segments closed, flushPath, mark
element added. -/
def DrawRectangle (aStartPoint aEndPoint : ℚ × ℚ) (s : CAIRO_GAL) : CAIRO_GAL :=
  let dA : ℚ × ℚ := (aEndPoint.1, aStartPoint.2)
  let dB : ℚ × ℚ := (aStartPoint.1, aEndPoint.2)
  let s1 := {s with ctxPath := s.ctxPath ++
      [PathElem.moveTo aStartPoint, PathElem.lineTo dA, PathElem.lineTo aEndPoint,
       PathElem.lineTo dB, PathElem.closePath]}
  {flushPath s1 with isElementAdded := true}

/-- SHAPE_LINE_CHAIN::CPoint with the wrap-around indexing used when a
closed chain is walked one past its last point. -/
def chainCPoint (pts : List (Int × Int)) (i : Nat) : Int × Int :=
  pts.getD (if i < pts.length then i else i - pts.length) (0, 0)

/-- Cast an integer board point to cairo coordinates. -/
def ratPt (p : Int × Int) : ℚ × ℚ :=
  ((p.1 : ℚ), (p.2 : ℚ))

/-- CAIRO_GAL::drawPoly(SHAPE_LINE_CHAIN): chains of fewer than two
points are skipped outright; otherwise move_to the first point, line_to
the rest (walking one extra point when the chain is closed), flushPath,
mark element added. -/
def drawPolyChain (pts : List (Int × Int)) (closed : Bool) (s : CAIRO_GAL) : CAIRO_GAL :=
  if pts.length < 2 then s
  else
    let numPoints := pts.length + (if closed then 1 else 0)
    let s0 := {s with ctxPath := s.ctxPath ++ [PathElem.moveTo (ratPt (chainCPoint pts 0))]}
    let s1 := (List.range (numPoints - 1)).foldl
      (fun st j =>
        {st with ctxPath := st.ctxPath ++ [PathElem.lineTo (ratPt (chainCPoint pts (j + 1)))]})
      s0
    {flushPath s1 with isElementAdded := true}

/-- CAIRO_GAL::SetIsFill. -/
def SetIsFill (aIsFillEnabled : Bool) (st : CAIRO_GAL) : CAIRO_GAL :=
  let s := storePath st
  let s := {s with isFillEnabled := aIsFillEnabled}
  if s.isGrouping then pushGroup s (GROUP_ELEMENT.cmdSetFill aIsFillEnabled) else s

/-- CAIRO_GAL::SetIsStroke. -/
def SetIsStroke (aIsStrokeEnabled : Bool) (st : CAIRO_GAL) : CAIRO_GAL :=
  let s := storePath st
  let s := {s with isStrokeEnabled := aIsStrokeEnabled}
  if s.isGrouping then pushGroup s (GROUP_ELEMENT.cmdSetStroke aIsStrokeEnabled) else s

/-- CAIRO_GAL::SetStrokeColor: storePath, assign, record when
grouping. -/
def SetStrokeColor (aColor : COLOR4D) (st : CAIRO_GAL) : CAIRO_GAL :=
  let s := storePath st
  let s := {s with strokeColor := aColor}
  if s.isGrouping then
    pushGroup s (GROUP_ELEMENT.cmdSetStrokeColor aColor.r aColor.g aColor.b aColor.a)
  else s

/-- CAIRO_GAL::SetFillColor: storePath, assign, record when grouping. -/
def SetFillColor (aColor : COLOR4D) (st : CAIRO_GAL) : CAIRO_GAL :=
  let s := storePath st
  let s := {s with fillColor := aColor}
  if s.isGrouping then
    pushGroup s (GROUP_ELEMENT.cmdSetFillColor aColor.r aColor.g aColor.b aColor.a)
  else s

/-- CAIRO_GAL::SetLineWidth: storePath, assign; grouping records the
command, otherwise the cairo width is set to the requested width floored
at one device pixel. -/
def SetLineWidth (aLineWidth : ℚ) (st : CAIRO_GAL) : CAIRO_GAL :=
  let s := storePath st
  let s := {s with lineWidth := aLineWidth}
  if s.isGrouping then pushGroup s (GROUP_ELEMENT.cmdSetLineWidth aLineWidth)
  else {s with ctxLineWidth := max aLineWidth (minUserUnit s.ctxXform)}

/-- CAIRO_GAL::SetLayerDepth: the base-class assignment happens first,
then storePath runs when the surface is initialized. -/
def SetLayerDepth (aLayerDepth : ℚ) (s : CAIRO_GAL) : CAIRO_GAL :=
  let s1 := {s with layerDepth := aLayerDepth}
  if s1.isInitialized then storePath s1 else s1

/-- CAIRO_GAL::Rotate. -/
def Rotate (aAngle : ℚ) (st : CAIRO_GAL) : CAIRO_GAL :=
  let s := storePath st
  if s.isGrouping then pushGroup s (GROUP_ELEMENT.cmdRotate aAngle)
  else {s with ctxXform := s.ctxXform ++ [CtxXform.rotate aAngle]}

/-- CAIRO_GAL::Translate. -/
def Translate (aTranslation : ℚ × ℚ) (st : CAIRO_GAL) : CAIRO_GAL :=
  let s := storePath st
  if s.isGrouping then
    pushGroup s (GROUP_ELEMENT.cmdTranslate aTranslation.1 aTranslation.2)
  else {s with ctxXform := s.ctxXform ++ [CtxXform.translate aTranslation.1 aTranslation.2]}

/-- CAIRO_GAL::Scale. -/
def Scale (aScale : ℚ × ℚ) (st : CAIRO_GAL) : CAIRO_GAL :=
  let s := storePath st
  if s.isGrouping then pushGroup s (GROUP_ELEMENT.cmdScale aScale.1 aScale.2)
  else {s with ctxXform := s.ctxXform ++ [CtxXform.scale aScale.1 aScale.2]}

/-- CAIRO_GAL::Save. -/
def Save (st : CAIRO_GAL) : CAIRO_GAL :=
  let s := storePath st
  if s.isGrouping then pushGroup s GROUP_ELEMENT.cmdSave
  else {s with ctxSaveStack := (s.ctxSource, s.ctxLineWidth, s.ctxXform) :: s.ctxSaveStack}

/-- CAIRO_GAL::Restore. -/
def Restore (st : CAIRO_GAL) : CAIRO_GAL :=
  let s := storePath st
  if s.isGrouping then pushGroup s GROUP_ELEMENT.cmdRestore
  else
    match s.ctxSaveStack with
    | [] => s
    | (src, w, xf) :: rest =>
        {s with ctxSource := src, ctxLineWidth := w, ctxXform := xf, ctxSaveStack := rest}

/-- CAIRO_GAL::initSurface: create a fresh cairo context (empty path,
default source and width, identity matrix), clear the screen with the
background colour, install the world-to-screen matrix, start a new path,
mark an element added, and reset the line width. -/
def initSurface (s : CAIRO_GAL) : CAIRO_GAL :=
  if s.isInitialized then s
  else
    let s1 := {s with ctxPath := [], ctxSource := ⟨0, 0, 0, 1⟩, ctxLineWidth := 2,
                      ctxXform := [], ctxSaveStack := []}
    let s2 := ClearScreen s1.backgroundColor s1
    let s3 := {s2 with ctxXform := [CtxXform.worldScreen]}
    {s3 with ctxPath := [], isElementAdded := true, lineWidth := 0, isInitialized := true}

/-- CAIRO_GAL::deinitSurface: destroy the cairo context and surface. -/
def deinitSurface (s : CAIRO_GAL) : CAIRO_GAL :=
  if !s.isInitialized then s
  else {s with isInitialized := false, ctxPath := []}

/-- The loop of CAIRO_GAL::getNewGroupNumber: advance groupCounter past
keys already in the map.  The fuel (one more than the map size) always
suffices, mirroring termination of the C++ while loop. -/
def findFreeFrom (t : GroupTable) : Nat → Nat → Nat
  | 0, c => c
  | fuel + 1, c =>
      if (tblFind t (Int.ofNat c)).isSome then findFreeFrom t fuel (c + 1) else c

/-- CAIRO_GAL::getNewGroupNumber: wxASSERT that slots remain, then scan
from groupCounter for a free key and post-increment. -/
def getNewGroupNumber (s : CAIRO_GAL) : Nat × CAIRO_GAL :=
  let s1 := if s.groups.length < 4294967295 then s else {s with assertFailed := true}
  let n := findFreeFrom s1.groups (s1.groups.length + 1) s1.groupCounter
  (n, {s1 with groupCounter := n + 1})

/-- CAIRO_GAL::BeginGroup: initSurface, storePath, insert a fresh empty
group, point currentGroup at it, enter grouping mode and return the new
handle. -/
def BeginGroup (st : CAIRO_GAL) : CAIRO_GAL × Int :=
  let s := storePath (initSurface st)
  let ns := getNewGroupNumber s
  let k : Int := Int.ofNat ns.1
  ({ns.2 with groups := ns.2.groups ++ [(k, [])],
              currentGroupKey := some k, isGrouping := true}, k)

/-- CAIRO_GAL::EndGroup: storePath, leave grouping mode,
deinitSurface. -/
def EndGroup (st : CAIRO_GAL) : CAIRO_GAL :=
  let s := storePath st
  deinitSurface {s with isGrouping := false}

/-- Execute one recorded command against the live context, exactly as
the switch in CAIRO_GAL::DrawGroup does (CMD_CALL_GROUP recursion is
handled by the replay driver). -/
def execCmd (e : GROUP_ELEMENT) (s : CAIRO_GAL) : CAIRO_GAL :=
  match e with
  | GROUP_ELEMENT.cmdSetFill b => {s with isFillEnabled := b}
  | GROUP_ELEMENT.cmdSetStroke b => {s with isStrokeEnabled := b}
  | GROUP_ELEMENT.cmdSetFillColor r g b a => {s with fillColor := ⟨r, g, b, a⟩}
  | GROUP_ELEMENT.cmdSetStrokeColor r g b a => {s with strokeColor := ⟨r, g, b, a⟩}
  | GROUP_ELEMENT.cmdSetLineWidth w =>
      {s with ctxLineWidth := max w (minUserUnit s.ctxXform)}
  | GROUP_ELEMENT.cmdStrokePath p =>
      let s1 := {s with ctxSource := setSourceRgb s.strokeColor, ctxPath := s.ctxPath ++ p}
      {emitOp s1 RKind.stroke with ctxPath := []}
  | GROUP_ELEMENT.cmdFillPath p =>
      let s1 := {s with ctxSource := setSourceRgb s.fillColor, ctxPath := s.ctxPath ++ p}
      {emitOp s1 RKind.fill with ctxPath := []}
  | GROUP_ELEMENT.cmdRotate ang => {s with ctxXform := s.ctxXform ++ [CtxXform.rotate ang]}
  | GROUP_ELEMENT.cmdTranslate x y =>
      {s with ctxXform := s.ctxXform ++ [CtxXform.translate x y]}
  | GROUP_ELEMENT.cmdScale sx sy => {s with ctxXform := s.ctxXform ++ [CtxXform.scale sx sy]}
  | GROUP_ELEMENT.cmdSave =>
      {s with ctxSaveStack := (s.ctxSource, s.ctxLineWidth, s.ctxXform) :: s.ctxSaveStack}
  | GROUP_ELEMENT.cmdRestore =>
      match s.ctxSaveStack with
      | [] => s
      | (src, w, xf) :: rest =>
          {s with ctxSource := src, ctxLineWidth := w, ctxXform := xf, ctxSaveStack := rest}
  | GROUP_ELEMENT.cmdCallGroup _ => s

/-- Replay a command list in order; nested CMD_CALL_GROUP commands call
back into the supplied DrawGroup. -/
def replayWith (dg : Int → CAIRO_GAL → CAIRO_GAL) :
    List GROUP_ELEMENT → CAIRO_GAL → CAIRO_GAL
  | [], s => s
  | e :: rest, s =>
      match e with
      | GROUP_ELEMENT.cmdCallGroup k => replayWith dg rest (dg k s)
      | _ => replayWith dg rest (execCmd e s)

/-- CAIRO_GAL::DrawGroup: storePath, then execute the stored commands of
groups[aGroupNumber] in order (std::map::operator[] default-inserts an
empty deque for unknown handles).  The C++ recursion through
CMD_CALL_GROUP is unbounded; the Nat argument is recursion fuel. -/
def DrawGroupF : Nat → Int → CAIRO_GAL → CAIRO_GAL
  | 0, _, s => s
  | fuel + 1, aGroupNumber, s =>
      let s1 := storePath s
      let gi := tblIndex s1.groups aGroupNumber
      replayWith (DrawGroupF fuel) gi.1 {s1 with groups := gi.2}

/-- The loop body of CAIRO_GAL::ChangeGroupColor, as a function of one
element: CMD_SET_FILLCOLOR / CMD_SET_STROKECOLOR get their four colour
operands overwritten, every other command is untouched. -/
def recolorElement (aNewColor : COLOR4D) (e : GROUP_ELEMENT) : GROUP_ELEMENT :=
  match e with
  | GROUP_ELEMENT.cmdSetFillColor _ _ _ _ =>
      GROUP_ELEMENT.cmdSetFillColor aNewColor.r aNewColor.g aNewColor.b aNewColor.a
  | GROUP_ELEMENT.cmdSetStrokeColor _ _ _ _ =>
      GROUP_ELEMENT.cmdSetStrokeColor aNewColor.r aNewColor.g aNewColor.b aNewColor.a
  | other => other

/-- CAIRO_GAL::ChangeGroupColor: storePath, then rewrite the colour
commands of groups[aGroupNumber] in place. -/
def ChangeGroupColor (aGroupNumber : Int) (aNewColor : COLOR4D) (st : CAIRO_GAL) : CAIRO_GAL :=
  let s := storePath st
  let gi := tblIndex s.groups aGroupNumber
  {s with groups := tblSet gi.2 aGroupNumber (gi.1.map (recolorElement aNewColor))}

/-- CAIRO_GAL::DeleteGroup: storePath, destroy the cairo paths held by
the group (no observable state in the model), erase the map entry. -/
def DeleteGroup (aGroupNumber : Int) (st : CAIRO_GAL) : CAIRO_GAL :=
  let s := storePath st
  let gi := tblIndex s.groups aGroupNumber
  {s with groups := tblErase gi.2 aGroupNumber}

/-- CAIRO_GAL::ClearCache: for i = groups.size()-1 down to 0,
DeleteGroup(i) — the loop runs over positions, not over the keys
actually present. -/
def ClearCache (s : CAIRO_GAL) : CAIRO_GAL :=
  ((List.range s.groups.length).reverse).foldl
    (fun st i => DeleteGroup (Int.ofNat i) st) s

/-- CAIRO_GAL::SetTarget: a missing compositor means a recache is in
progress and the call returns at once; otherwise storePath when the
surface is initialized, then select the buffer for the target. -/
def bufferFor : RENDER_TARGET → CBuffer
  | RENDER_TARGET.cached => CBuffer.main
  | RENDER_TARGET.noncached => CBuffer.main
  | RENDER_TARGET.overlay => CBuffer.overlay

/-- CAIRO_GAL::SetTarget. -/
def SetTarget (aTarget : RENDER_TARGET) (s : CAIRO_GAL) : CAIRO_GAL :=
  if !s.validCompositor then s
  else
    let s1 := if s.isInitialized then storePath s else s
    {s1 with compositorBuffer := bufferFor aTarget, currentTarget := aTarget}

/-- The geometry-determining part of a painting operation: everything
but the source colour. -/
def geomOf (o : RenderOp) : RKind × List PathElem × List CtxXform × ℚ × CBuffer :=
  (o.kind, o.path, o.xform, o.width, o.buffer)

/-- True when a single command is not CMD_CALL_GROUP. -/
def notCall (e : GROUP_ELEMENT) : Bool :=
  match e with
  | GROUP_ELEMENT.cmdCallGroup _ => false
  | _ => true

/-- True when a command list contains no CMD_CALL_GROUP (all groups
recorded by this source are of this form: nothing in cairo_gal.cpp ever
records CMD_CALL_GROUP). -/
def noCallGroup (g : GROUP) : Bool :=
  g.all notCall

/-- True for CMD_SET_STROKECOLOR. -/
def isStrokeColorCmd (e : GROUP_ELEMENT) : Bool :=
  match e with
  | GROUP_ELEMENT.cmdSetStrokeColor _ _ _ _ => true
  | _ => false

/-- True for CMD_SET_FILLCOLOR. -/
def isFillColorCmd (e : GROUP_ELEMENT) : Bool :=
  match e with
  | GROUP_ELEMENT.cmdSetFillColor _ _ _ _ => true
  | _ => false

/-- True for either colour command. -/
def isColorCmd (e : GROUP_ELEMENT) : Bool :=
  isStrokeColorCmd e || isFillColorCmd e

/-- The geometry-relevant part of a saved graphics state: line width and
CTM (the saved source colour only affects colours). -/
def stackProj (x : COLOR4D × ℚ × List CtxXform) : ℚ × List CtxXform :=
  (x.2.1, x.2.2)

/-- Two context states that agree on everything that determines replay
geometry: path, CTM, save stack (width/CTM parts), width, fill/stroke
flags, selected buffer, and the geometry of everything already painted. -/
def GeomRel (s1 s2 : CAIRO_GAL) : Prop :=
  s1.ctxPath = s2.ctxPath ∧ s1.ctxXform = s2.ctxXform ∧
  s1.ctxSaveStack.map stackProj = s2.ctxSaveStack.map stackProj ∧
  s1.ctxLineWidth = s2.ctxLineWidth ∧ s1.isFillEnabled = s2.isFillEnabled ∧
  s1.isStrokeEnabled = s2.isStrokeEnabled ∧
  s1.compositorBuffer = s2.compositorBuffer ∧
  s1.output.map geomOf = s2.output.map geomOf

end Cairo

namespace Plot

open Cairo (COLOR4D)

/-- COLOR4D::WHITE. -/
def WHITE : COLOR4D :=
  ⟨1, 1, 1, 1⟩

/-- The LIGHTGRAY readability substitute (its exact component values live
in the colour table outside these sources; only LIGHTGRAY ≠ WHITE is
relied on). -/
def LIGHTGRAY : COLOR4D :=
  ⟨13 / 16, 13 / 16, 13 / 16, 1⟩

/-- The plot-options / board inputs a BRDITEMS_PLOTTER reads: the layer
visibility mask m_layerMask, the board layer-colour table, and the
layer-set predicates computed through LSET (external to these two
files), passed as predicates. -/
structure BRD_CTX where
  layerMask : Int → Bool
  layerColor : Int → COLOR4D
  isCopperLayer : Int → Bool

/-- The primitive calls a BRDITEMS_PLOTTER issues to its PLOTTER back
end.  thickArc keeps the data that determines its angles — the (dy,dx)
pair fed to ArcTangente and the entity sweep angle — rather than the
irrational angle values; plotPolyRot keeps the corner list together with
the footprint orientation/position applied by RotatePoint.  textLine
carries the line index of a multiline text. -/
inductive PlotPrim where
  | thickSegment (s e : Int × Int) (width : Int)
  | thickCircle (c : Int × Int) (diameter width : Int)
  | thickArc (c : Int × Int) (dyx : Int × Int) (sweep : ℚ) (radius width : Int)
  | plotPoly (pts : List (Int × Int)) (filled : Bool) (width : Int)
  | plotPolyRot (pts : List (Int × Int)) (orient : Int) (offset : Int × Int)
      (filled : Bool) (width : Int)
  | textPrim (pos : Int × Int) (size : Int × Int) (angle : ℚ) (txt : String)
      (thickness : Int) (italic bold : Bool)
  | textLine (index : Nat) (txt : String) (size : Int × Int) (angle : ℚ)
      (thickness : Int) (italic bold : Bool)
deriving DecidableEq, Repr

/-- The observable state of the PLOTTER back end: its current colour and
the primitives received so far. -/
structure PLOTTER where
  color : COLOR4D
  out : List PlotPrim
deriving DecidableEq, Repr

/-- PLOTTER::SetColor. -/
def setColor (pl : PLOTTER) (c : COLOR4D) : PLOTTER :=
  {pl with color := c}

/-- Receive one primitive. -/
def emit (pl : PLOTTER) (p : PlotPrim) : PLOTTER :=
  {pl with out := pl.out ++ [p]}

/-- BRDITEMS_PLOTTER::getColor: the layer colour, with WHITE replaced by
LIGHTGRAY for readability. -/
def getColor (ctx : BRD_CTX) (aLayer : Int) : COLOR4D :=
  let color := ctx.layerColor aLayer
  if color = WHITE then LIGHTGRAY else color

/-- Round-half-up integer square root: for n : Nat this equals
floor(sqrt n + 1/2), hence KiROUND(GetLineLength(..)) exactly on integer
endpoints. -/
def roundSqrt (n : Nat) : Nat :=
  let m := Nat.sqrt n
  if m * m + m < n then m + 1 else m

/-- KiROUND( GetLineLength( a, b ) ) on integer points. -/
def lineLen (a b : Int × Int) : Nat :=
  roundSqrt (((b.1 - a.1) * (b.1 - a.1) + (b.2 - a.2) * (b.2 - a.2)).toNat)

/-- STROKE_T shapes of a DRAWSEGMENT. -/
inductive SegShapeT where
  | segment
  | circle
  | arc
  | curve
deriving DecidableEq, Repr

/-- DRAWSEGMENT: geometry of a board drawing segment. -/
structure DRAWSEGMENT where
  shape : SegShapeT
  width : Int
  layer : Int
  startP : Int × Int
  endP : Int × Int
  angle : ℚ
  bezierPoints : List (Int × Int)
deriving DecidableEq, Repr

/-- BRDITEMS_PLOTTER::PlotDrawSegment: skip invisible layers, set the
resolved colour, then dispatch on the shape (the gerber metadata
attachment carries no geometry and is not modelled on the primitives). -/
def PlotDrawSegment (ctx : BRD_CTX) (aSeg : DRAWSEGMENT) (pl : PLOTTER) : PLOTTER :=
  if !(ctx.layerMask aSeg.layer) then pl
  else
    let thickness := aSeg.width
    let pl := setColor pl (getColor ctx aSeg.layer)
    match aSeg.shape with
    | SegShapeT.circle =>
        let radius : Int := Int.ofNat (lineLen aSeg.endP aSeg.startP)
        emit pl (PlotPrim.thickCircle aSeg.startP (radius * 2) thickness)
    | SegShapeT.arc =>
        let radius : Int := Int.ofNat (lineLen aSeg.endP aSeg.startP)
        emit pl (PlotPrim.thickArc aSeg.startP
          (aSeg.endP.2 - aSeg.startP.2, aSeg.endP.1 - aSeg.startP.1) aSeg.angle
          radius thickness)
    | SegShapeT.curve =>
        (List.range (aSeg.bezierPoints.length - 1)).foldl
          (fun p i => emit p (PlotPrim.thickSegment
            (aSeg.bezierPoints.getD i (0, 0)) (aSeg.bezierPoints.getD (i + 1) (0, 0))
            thickness)) pl
    | SegShapeT.segment =>
        emit pl (PlotPrim.thickSegment aSeg.startP aSeg.endP thickness)

/-- PCB_TARGET (mire): position, overall size, line width, layer, and
the shape flag (false = plus cross, true = X cross). -/
structure PCB_TARGET where
  pos : Int × Int
  size : Int
  width : Int
  layer : Int
  shape : Bool
deriving DecidableEq, Repr

/-- BRDITEMS_PLOTTER::PlotPcbTarget: a circle of radius size/3 (size/2
when the X-shape flag is set) drawn through a circle DRAWSEGMENT with
its end point sitting radius to the right of the centre, followed by
the two cross arms of half-length size/2 (axis-aligned for the plus
shape, diagonal for the X shape). -/
def PlotPcbTarget (ctx : BRD_CTX) (aMire : PCB_TARGET) (pl : PLOTTER) : PLOTTER :=
  if !(ctx.layerMask aMire.layer) then pl
  else
    let pl := setColor pl (getColor ctx aMire.layer)
    let radius : Int :=
      if aMire.shape then Int.tdiv aMire.size 2 else Int.tdiv aMire.size 3
    let circleSeg : DRAWSEGMENT :=
      ⟨SegShapeT.circle, aMire.width, aMire.layer, aMire.pos,
        (aMire.pos.1 + radius, aMire.pos.2), 0, []⟩
    let pl := PlotDrawSegment ctx circleSeg pl
    let radius := Int.tdiv aMire.size 2
    let d1 : Int × Int := if aMire.shape then (radius, radius) else (radius, 0)
    let d2 : Int × Int := if aMire.shape then (radius, -radius) else (0, radius)
    let seg1 : DRAWSEGMENT :=
      ⟨SegShapeT.segment, aMire.width, aMire.layer,
        (aMire.pos.1 - d1.1, aMire.pos.2 - d1.2),
        (aMire.pos.1 + d1.1, aMire.pos.2 + d1.2), 0, []⟩
    let pl := PlotDrawSegment ctx seg1 pl
    let seg2 : DRAWSEGMENT :=
      ⟨SegShapeT.segment, aMire.width, aMire.layer,
        (aMire.pos.1 - d2.1, aMire.pos.2 - d2.2),
        (aMire.pos.1 + d2.1, aMire.pos.2 + d2.2), 0, []⟩
    PlotDrawSegment ctx seg2 pl

/-- Shapes of an EDGE_MODULE. -/
inductive EdgeShapeT where
  | segment
  | circle
  | arc
  | polygon
deriving DecidableEq, Repr

/-- EDGE_MODULE: a footprint graphic item.  parentModule carries the
owning footprint orientation (decidegrees) and position when present. -/
structure EDGE_MODULE where
  shape : EdgeShapeT
  width : Int
  layer : Int
  startP : Int × Int
  endP : Int × Int
  angle : ℚ
  polyPoints : List (Int × Int)
  parentModule : Option (Int × (Int × Int))
deriving DecidableEq, Repr

/-- BRDITEMS_PLOTTER::Plot_1_EdgeModule: set the resolved layer colour,
then dispatch on the shape; a polygon of one point or fewer is dropped
before any primitive is emitted.  The per-corner RotatePoint/translate
of the polygon case is trigonometric and kept as the symbolic
orientation/offset payload of the emitted primitive. -/
def Plot1EdgeModule (ctx : BRD_CTX) (aEdge : EDGE_MODULE) (pl : PLOTTER) : PLOTTER :=
  let pl := setColor pl (getColor ctx aEdge.layer)
  let thickness := aEdge.width
  match aEdge.shape with
  | EdgeShapeT.segment =>
      emit pl (PlotPrim.thickSegment aEdge.startP aEdge.endP thickness)
  | EdgeShapeT.circle =>
      let radius : Int := Int.ofNat (lineLen aEdge.endP aEdge.startP)
      emit pl (PlotPrim.thickCircle aEdge.startP (radius * 2) thickness)
  | EdgeShapeT.arc =>
      let radius : Int := Int.ofNat (lineLen aEdge.endP aEdge.startP)
      emit pl (PlotPrim.thickArc aEdge.startP
        (aEdge.endP.2 - aEdge.startP.2, aEdge.endP.1 - aEdge.startP.1) aEdge.angle
        radius thickness)
  | EdgeShapeT.polygon =>
      if aEdge.polyPoints.length ≤ 1 then pl
      else
        match aEdge.parentModule with
        | some op =>
            emit pl (PlotPrim.plotPolyRot aEdge.polyPoints op.1 op.2 true thickness)
        | none =>
            emit pl (PlotPrim.plotPolyRot aEdge.polyPoints 0 (0, 0) true thickness)

/-- TEXTE_PCB: a PCB text item; shownText is the resolved
GetShownText(). -/
structure TEXTE_PCB where
  shownText : String
  layer : Int
  textPos : Int × Int
  textSize : Int × Int
  textAngle : ℚ
  thickness : Int
  mirrored : Bool
  italic : Bool
  bold : Bool
  multiline : Bool
deriving DecidableEq, Repr

/-- BRDITEMS_PLOTTER::PlotTextePcb: empty resolved text returns before
everything else (even the layer-visibility test); then the layer mask is
consulted, the colour set, and the text emitted (line by line for
multiline text, whose line positions come from external text-geometry
code and are recorded as line indices). -/
def PlotTextePcb (ctx : BRD_CTX) (pt : TEXTE_PCB) (pl : PLOTTER) : PLOTTER :=
  if pt.shownText = "" then pl
  else if !(ctx.layerMask pt.layer) then pl
  else
    let pl := setColor pl (getColor ctx pt.layer)
    let size : Int × Int :=
      if pt.mirrored then (-pt.textSize.1, pt.textSize.2) else pt.textSize
    let allowBold := pt.bold || pt.thickness ≠ 0
    if pt.multiline then
      let lines := pt.shownText.splitOn "\n"
      (List.range lines.length).foldl
        (fun p i => emit p (PlotPrim.textLine i (lines.getD i "") size pt.textAngle
          pt.thickness pt.italic allowBold)) pl
    else
      emit pl (PlotPrim.textPrim pt.textPos size pt.textAngle pt.shownText
        pt.thickness pt.italic allowBold)

/-- PAD_ATTR_T: the pad attribute kinds. -/
inductive PadAttrT where
  | standard
  | smd
  | conn
  | holeNotPlated
deriving DecidableEq, Repr

/-- PAD_SHAPE_T. -/
inductive PadShapeT where
  | circle
  | oval
  | trapezoid
  | roundrect
  | rect
deriving DecidableEq, Repr

/-- GBR_APERTURE_METADATA aperture-function attributes. -/
inductive GbrAperture where
  | undefined
  | conductor
  | nonconductor
  | washerPad
  | viaPad
  | componentPad
  | connectorPad
  | bgaPadCuDef
  | smdPadCuDef
  | etchedCmp
deriving DecidableEq, Repr

/-- GBR_NETLIST_METADATA attribute-type flag set (net, component,
pad-name). -/
structure GbrNetAttrib where
  net : Bool
  cmp : Bool
  pad : Bool
deriving DecidableEq, Repr

/-- GBR_NETINFO_ALL. -/
def GBR_NETINFO_ALL : GbrNetAttrib :=
  ⟨true, true, true⟩

/-- The metadata record built by BRDITEMS_PLOTTER::PlotPad. -/
structure GBR_METADATA where
  netAttribType : GbrNetAttrib
  padName : String
  netName : String
  cmpReference : String
  notInNet : Bool
  apertureAttrib : GbrAperture
deriving DecidableEq, Repr

/-- The metadata-construction part of BRDITEMS_PLOTTER::PlotPad.  The
three booleans are the mask tests computed through LSET at the top of
the function: (m_layerMask & AllCuMask).any(),
(m_layerMask & ExternalCuMask).any(), and
(pad->GetLayerSet() & AllBoardTechMask).any(). -/
def plotPadMetadata (isOnCopperLayer isOnExternalCopperLayer isPadOnBoardTechLayers : Bool)
    (anAttribute : PadAttrT) (shape : PadShapeT)
    (padName netName cmpRef : String) : GBR_METADATA :=
  let m : GBR_METADATA :=
    ⟨⟨false, false, false⟩, "", "", cmpRef, false, GbrAperture.undefined⟩
  if isOnCopperLayer then
    let m := {m with netAttribType := GBR_NETINFO_ALL}
    let m := if isOnExternalCopperLayer then {m with padName := padName} else m
    let m := {m with netName := netName}
    let m :=
      if anAttribute = PadAttrT.holeNotPlated ∨ padName = "" then
        {m with notInNet := true}
      else m
    let m :=
      if !isOnExternalCopperLayer || !isPadOnBoardTechLayers then
        let m := {m with netAttribType := ⟨true, true, false⟩}
        let m :=
          if !isPadOnBoardTechLayers then
            {m with apertureAttrib := GbrAperture.conductor}
          else m
        match anAttribute with
        | PadAttrT.holeNotPlated => {m with apertureAttrib := GbrAperture.washerPad}
        | PadAttrT.standard => {m with apertureAttrib := GbrAperture.viaPad}
        | _ => m
      else
        match anAttribute with
        | PadAttrT.holeNotPlated => {m with apertureAttrib := GbrAperture.washerPad}
        | PadAttrT.standard => {m with apertureAttrib := GbrAperture.componentPad}
        | PadAttrT.conn => {m with apertureAttrib := GbrAperture.connectorPad}
        | PadAttrT.smd =>
            if shape = PadShapeT.circle then
              {m with apertureAttrib := GbrAperture.bgaPadCuDef}
            else {m with apertureAttrib := GbrAperture.smdPadCuDef}
    if anAttribute = PadAttrT.holeNotPlated then
      {m with apertureAttrib := GbrAperture.washerPad}
    else m
  else
    {m with netAttribType := ⟨false, true, false⟩}

/-- PAD_DRILL_SHAPE_T. -/
inductive DrillShapeT where
  | circle
  | oblong
deriving DecidableEq, Repr

/-- The flash primitive emitted for a drill mark. -/
inductive DrillMarkPrim where
  | flashOval (pos : Int × Int) (size : Int × Int) (orient : ℚ)
  | flashCircle (pos : Int × Int) (diameter : Int)
deriving DecidableEq, Repr

/-- Clamp from macros.h: Clamp( lower, value, upper ). -/
def Clamp (lower value upper : Int) : Int :=
  if value < lower then lower
  else if upper < value then upper
  else value

/-- BRDITEMS_PLOTTER::plotOneDrillMark: the small-drill ceiling applies
only to circular drills (when small-drill mode is on, aSmallDrill ≠ 0);
then the fine-width compensation getFineWidthAdj() (a configured plot
parameter, here the argument fineWidthAdj) is subtracted; then the
result is clamped into [1, padDimension-1]; slots additionally process
their y dimension and flash an oval. -/
def plotOneDrillMark (aDrillShape : DrillShapeT) (aDrillPos : Int × Int)
    (aDrillSize : Int × Int) (aPadSize : Int × Int) (aOrientation : ℚ)
    (aSmallDrill : Int) (fineWidthAdj : Int) : DrillMarkPrim :=
  let dx :=
    if aSmallDrill ≠ 0 ∧ aDrillShape = DrillShapeT.circle then
      min aSmallDrill aDrillSize.1
    else aDrillSize.1
  let dx := dx - fineWidthAdj
  let dx := Clamp 1 dx (aPadSize.1 - 1)
  if aDrillShape = DrillShapeT.oblong then
    let dy := aDrillSize.2 - fineWidthAdj
    let dy := Clamp 1 dy (aPadSize.2 - 1)
    DrillMarkPrim.flashOval aDrillPos (dx, dy) aOrientation
  else
    DrillMarkPrim.flashCircle aDrillPos dx

/-- A value context for witnesses: every layer visible, every layer blue,
no layer copper. -/
def ctxW : BRD_CTX :=
  ⟨fun _ => true, fun _ => ⟨0, 0, 1, 1⟩, fun _ => false⟩

/-- A plotter in its start state, black colour, nothing emitted. -/
def plW : PLOTTER :=
  ⟨⟨0, 0, 0, 1⟩, []⟩

/-- An empty PCB text on a visible layer. -/
def ptEmpty : TEXTE_PCB :=
  ⟨"", 5, (0, 0), (10, 10), 0, 3, false, false, false, false⟩

/-- A concrete mire of size 30 with the plus shape. -/
def mireW : PCB_TARGET :=
  ⟨(0, 0), 30, 4, 2, false⟩

/-- A context whose layers are all visible and coloured red. -/
def ctx9 : BRD_CTX :=
  ⟨fun _ => true, fun _ => ⟨1, 0, 0, 1⟩, fun _ => false⟩

/-- A one-point footprint-edge polygon on layer 3. -/
def edge9 : EDGE_MODULE :=
  ⟨EdgeShapeT.polygon, 5, 3, (0, 0), (0, 0), 0, [(0, 0)], none⟩

/-- A zero-point footprint-edge polygon on layer 7. -/
def edgeW : EDGE_MODULE :=
  ⟨EdgeShapeT.polygon, 2, 7, (0, 0), (0, 0), 0, [], none⟩

end Plot

/-- A CAIRO_GAL state with an initialized surface, a valid compositor
and a pending (queued, unflushed) line path, stroke enabled. -/
def galW : Cairo.CAIRO_GAL :=
  ⟨false, true, true, false, 0, [], none, true, false, true,
   ⟨0, 0, 0, 1⟩, ⟨1, 0, 0, 1⟩, ⟨0, 0, 0, 1⟩, 1, 0, (100, 100),
   [Cairo.PathElem.moveTo (0, 0), Cairo.PathElem.lineTo (5, 5)],
   ⟨0, 0, 0, 1⟩, 1, [], [], Cairo.RENDER_TARGET.cached, Cairo.CBuffer.main, []⟩

/-- A quiescent CAIRO_GAL state: initialized, valid compositor, no
pending element, no groups. -/
def galQ : Cairo.CAIRO_GAL :=
  ⟨false, true, true, false, 0, [], none, false, false, true,
   ⟨0, 0, 0, 1⟩, ⟨1, 0, 0, 1⟩, ⟨0, 0, 0, 1⟩, 1, 0, (100, 100),
   [], ⟨0, 0, 0, 1⟩, 1, [], [], Cairo.RENDER_TARGET.cached, Cairo.CBuffer.main, []⟩

/-- The group table after BeginGroup/EndGroup three times (handles
0, 1, 2) followed by DeleteGroup(1): live handles {0, 2} are not
contiguous. -/
def clearCacheState : Cairo.CAIRO_GAL :=
  Cairo.DeleteGroup 1
    (Cairo.EndGroup (Cairo.BeginGroup
      (Cairo.EndGroup (Cairo.BeginGroup
        (Cairo.EndGroup (Cairo.BeginGroup galQ).1)).1)).1)

/-- The state after recording one DrawLine between BeginGroup and
EndGroup, with stroke enabled and fill disabled. -/
def grpRec : Cairo.CAIRO_GAL :=
  Cairo.EndGroup (Cairo.DrawLine (0, 0) (10, 0) (Cairo.BeginGroup galQ).1)

/-- A group holding one recorded stroke colour and one recorded stroke
path, stored under handle 0. -/
def gG : Cairo.GROUP :=
  [Cairo.GROUP_ELEMENT.cmdSetStrokeColor 0 1 0 1,
   Cairo.GROUP_ELEMENT.cmdStrokePath
     [Cairo.PathElem.moveTo (1, 2), Cairo.PathElem.lineTo (3, 4)]]

/-- A quiescent state whose table holds gG at handle 0. -/
def galG : Cairo.CAIRO_GAL :=
  {galQ with groups := [(0, gG)]}

namespace Cairo

@[simp] theorem emitOp_isElementAdded (s : CAIRO_GAL) (k : RKind) :
    (emitOp s k).isElementAdded = s.isElementAdded := rfl

@[simp] theorem emitOp_ctxPath (s : CAIRO_GAL) (k : RKind) :
    (emitOp s k).ctxPath = s.ctxPath := rfl

@[simp] theorem emitOp_groups (s : CAIRO_GAL) (k : RKind) :
    (emitOp s k).groups = s.groups := rfl

@[simp] theorem emitOp_isGrouping (s : CAIRO_GAL) (k : RKind) :
    (emitOp s k).isGrouping = s.isGrouping := rfl

@[simp] theorem emitOp_isFillEnabled (s : CAIRO_GAL) (k : RKind) :
    (emitOp s k).isFillEnabled = s.isFillEnabled := rfl

@[simp] theorem emitOp_isStrokeEnabled (s : CAIRO_GAL) (k : RKind) :
    (emitOp s k).isStrokeEnabled = s.isStrokeEnabled := rfl

@[simp] theorem emitOp_output (s : CAIRO_GAL) (k : RKind) :
    (emitOp s k).output = s.output ++
      [⟨k, s.ctxPath, s.ctxXform, s.ctxSource, s.ctxLineWidth, s.compositorBuffer⟩] := rfl

@[simp] theorem pushGroup_output (s : CAIRO_GAL) (e : GROUP_ELEMENT) :
    (pushGroup s e).output = s.output := by
  unfold pushGroup
  cases s.currentGroupKey <;> rfl

@[simp] theorem pushGroup_isElementAdded (s : CAIRO_GAL) (e : GROUP_ELEMENT) :
    (pushGroup s e).isElementAdded = s.isElementAdded := by
  unfold pushGroup
  cases s.currentGroupKey <;> rfl

@[simp] theorem pushGroup_ctxPath (s : CAIRO_GAL) (e : GROUP_ELEMENT) :
    (pushGroup s e).ctxPath = s.ctxPath := by
  unfold pushGroup
  cases s.currentGroupKey <;> rfl

@[simp] theorem pushGroup_isFillEnabled (s : CAIRO_GAL) (e : GROUP_ELEMENT) :
    (pushGroup s e).isFillEnabled = s.isFillEnabled := by
  unfold pushGroup
  cases s.currentGroupKey <;> rfl

@[simp] theorem pushGroup_isStrokeEnabled (s : CAIRO_GAL) (e : GROUP_ELEMENT) :
    (pushGroup s e).isStrokeEnabled = s.isStrokeEnabled := by
  unfold pushGroup
  cases s.currentGroupKey <;> rfl

@[simp] theorem pushGroup_isGrouping (s : CAIRO_GAL) (e : GROUP_ELEMENT) :
    (pushGroup s e).isGrouping = s.isGrouping := by
  unfold pushGroup
  cases s.currentGroupKey <;> rfl

theorem storePath_not_pending (s : CAIRO_GAL) (h : s.isElementAdded = false) :
    storePath s = s := by
  unfold storePath
  simp [h]

theorem storePath_isElementAdded (s : CAIRO_GAL) (h : s.isElementAdded = true) :
    (storePath s).isElementAdded = false := by
  unfold storePath
  rw [if_pos h]
  dsimp only
  split_ifs <;> simp

theorem storePath_ctxPath (s : CAIRO_GAL) (h : s.isElementAdded = true) :
    (storePath s).ctxPath = [] := by
  unfold storePath
  rw [if_pos h]

end Cairo

namespace Plot

theorem roundSqrt_sq (k : Nat) : roundSqrt (k * k) = k := by
  have h : Nat.sqrt (k * k) = k := Nat.sqrt_eq k
  unfold roundSqrt
  rw [h]
  have h2 : ¬(k * k + k < k * k) := by omega
  simp [h2]

theorem lineLen_horiz (p : Int × Int) (r : Int) (hr : 0 ≤ r) :
    ((lineLen (p.1 + r, p.2) p : Nat) : Int) = r := by
  obtain ⟨k, rfl⟩ := Int.eq_ofNat_of_zero_le hr
  unfold lineLen
  have h1 : ((p.1 - (p.1 + (k : ℤ), p.2).1) * (p.1 - (p.1 + (k : ℤ), p.2).1)
      + (p.2 - (p.1 + (k : ℤ), p.2).2) * (p.2 - (p.1 + (k : ℤ), p.2).2)).toNat
      = k * k := by
    have h2 : (p.1 - (p.1 + (k : ℤ), p.2).1) * (p.1 - (p.1 + (k : ℤ), p.2).1)
        + (p.2 - (p.1 + (k : ℤ), p.2).2) * (p.2 - (p.1 + (k : ℤ), p.2).2)
        = ((k * k : ℕ) : ℤ) := by
      push_cast
      ring
    rw [h2]
    exact Int.toNat_natCast (k * k)
  rw [h1, roundSqrt_sq]

end Plot

open Cairo Plot

/-- C3: for every drill mark plotted with small-drill mode active
(aSmallDrill ≠ 0) and a circular (non-slot) drill, the flashed diameter
is obtained by first clamping the diameter to the small-drill ceiling,
then subtracting the width-compensation allowance, then clamping the
result into [1, padDimension-1] — in that order. -/
theorem drill_mark_clamp_order (aDrillPos aDrillSize aPadSize : Int × Int)
    (aOrientation : ℚ) (aSmallDrill fineWidthAdj : Int)
    (hSmall : aSmallDrill ≠ 0) :
    plotOneDrillMark DrillShapeT.circle aDrillPos aDrillSize aPadSize aOrientation
        aSmallDrill fineWidthAdj
      = DrillMarkPrim.flashCircle aDrillPos
          (Clamp 1 (min aSmallDrill aDrillSize.1 - fineWidthAdj) (aPadSize.1 - 1)) := by
  simp [plotOneDrillMark, hSmall]

/-- Witness for C3, at the concrete input of the spec: drillSize = 40,
smallDrillCeiling = 25, padSize = 100, compensation = 5 flashes a circle
of diameter 20. -/
theorem drill_mark_clamp_order_witness :
    (25 : Int) ≠ 0 ∧
    plotOneDrillMark DrillShapeT.circle (0, 0) (40, 0) (100, 100) 0 25 5
      = DrillMarkPrim.flashCircle (0, 0) 20 :=
  ⟨by decide,
    (drill_mark_clamp_order (0, 0) (40, 0) (100, 100) 0 25 5 (by decide)).trans
      (by decide)⟩

/-- C4: for a through-hole standard pad plotted on a copper layer, the
aperture attribute is component-pad exactly when the layer set includes
an external copper layer and the pad sits on a board-tech layer, and
via-pad for internal-only copper layers or a pad on no tech layer. -/
theorem pad_aperture_standard_classification (ext tech : Bool) (shape : PadShapeT)
    (padName netName cmpRef : String) :
    (plotPadMetadata true ext tech PadAttrT.standard shape
        padName netName cmpRef).apertureAttrib
      = (if ext && tech then GbrAperture.componentPad else GbrAperture.viaPad) := by
  cases ext <;> cases tech <;>
    simp [plotPadMetadata, GBR_NETINFO_ALL, apply_ite]

/-- C10: a PCB text entity whose resolved text is empty is dropped by
PlotTextePcb before anything else happens: no primitive is emitted and
the plotter state is returned unchanged, regardless of layer
visibility. -/
theorem plot_texte_pcb_empty (ctx : BRD_CTX) (pt : TEXTE_PCB) (pl : PLOTTER)
    (h : pt.shownText = "") :
    PlotTextePcb ctx pt pl = pl := by
  simp [PlotTextePcb, h]

/-- Witness for C10: the empty text sits on a visible layer, and
plotting it leaves the plotter untouched. -/
theorem plot_texte_pcb_empty_witness :
    ptEmpty.shownText = "" ∧ ctxW.layerMask ptEmpty.layer = true ∧
    PlotTextePcb ctxW ptEmpty plW = plW :=
  ⟨rfl, rfl, plot_texte_pcb_empty ctxW ptEmpty plW rfl⟩

namespace Plot

theorem tdiv_nonneg_of_nonneg (a b : ℤ) (ha : 0 ≤ a) (hb : 0 ≤ b) :
    0 ≤ Int.tdiv a b := by
  obtain ⟨k, rfl⟩ := Int.eq_ofNat_of_zero_le ha
  obtain ⟨m, rfl⟩ := Int.eq_ofNat_of_zero_le hb
  show (0 : ℤ) ≤ Int.ofNat (k / m)
  exact Int.ofNat_nonneg (k / m)

theorem plotDrawSegment_circle_out (ctx : BRD_CTX) (w layer : Int) (p : Int × Int)
    (r : Int) (pl : PLOTTER) (hvis : ctx.layerMask layer = true) (hr : 0 ≤ r) :
    PlotDrawSegment ctx ⟨SegShapeT.circle, w, layer, p, (p.1 + r, p.2), 0, []⟩ pl
      = ⟨getColor ctx layer, pl.out ++ [PlotPrim.thickCircle p (r * 2) w]⟩ := by
  simp [PlotDrawSegment, hvis, setColor, emit, lineLen_horiz p r hr]

theorem plotDrawSegment_segment_out (ctx : BRD_CTX) (w layer : Int) (a b : Int × Int)
    (pl : PLOTTER) (hvis : ctx.layerMask layer = true) :
    PlotDrawSegment ctx ⟨SegShapeT.segment, w, layer, a, b, 0, []⟩ pl
      = ⟨getColor ctx layer, pl.out ++ [PlotPrim.thickSegment a b w]⟩ := by
  simp [PlotDrawSegment, hvis, setColor, emit]

end Plot

/-- C8: a target (mire) on a visible layer is plotted as a circle of
radius size/3 (shape flag unset) or size/2 (shape flag set), followed by
two cross arms of half-length size/2 — axis-aligned for the plus shape,
diagonal for the X shape. -/
theorem pcb_target_decomposition (ctx : BRD_CTX) (aMire : PCB_TARGET) (pl : PLOTTER)
    (hvis : ctx.layerMask aMire.layer = true) (hsz : 0 ≤ aMire.size) :
    (PlotPcbTarget ctx aMire pl).out = pl.out ++
      [PlotPrim.thickCircle aMire.pos
         ((if aMire.shape then Int.tdiv aMire.size 2 else Int.tdiv aMire.size 3) * 2)
         aMire.width,
       (if aMire.shape then
          PlotPrim.thickSegment
            (aMire.pos.1 - Int.tdiv aMire.size 2, aMire.pos.2 - Int.tdiv aMire.size 2)
            (aMire.pos.1 + Int.tdiv aMire.size 2, aMire.pos.2 + Int.tdiv aMire.size 2)
            aMire.width
        else
          PlotPrim.thickSegment (aMire.pos.1 - Int.tdiv aMire.size 2, aMire.pos.2)
            (aMire.pos.1 + Int.tdiv aMire.size 2, aMire.pos.2) aMire.width),
       (if aMire.shape then
          PlotPrim.thickSegment
            (aMire.pos.1 - Int.tdiv aMire.size 2, aMire.pos.2 + Int.tdiv aMire.size 2)
            (aMire.pos.1 + Int.tdiv aMire.size 2, aMire.pos.2 - Int.tdiv aMire.size 2)
            aMire.width
        else
          PlotPrim.thickSegment (aMire.pos.1, aMire.pos.2 - Int.tdiv aMire.size 2)
            (aMire.pos.1, aMire.pos.2 + Int.tdiv aMire.size 2) aMire.width)] := by
  have h2 : (0 : ℤ) ≤ Int.tdiv aMire.size 2 :=
    tdiv_nonneg_of_nonneg aMire.size 2 hsz (by norm_num)
  have h3 : (0 : ℤ) ≤ Int.tdiv aMire.size 3 :=
    tdiv_nonneg_of_nonneg aMire.size 3 hsz (by norm_num)
  cases hs : aMire.shape
  · rw [PlotPcbTarget]
    simp only [hvis, hs, Bool.not_true, Bool.false_eq_true, if_false, if_true,
      Bool.not_false, ite_true, ite_false, setColor]
    rw [plotDrawSegment_circle_out ctx aMire.width aMire.layer aMire.pos
        (Int.tdiv aMire.size 3) _ hvis h3,
      plotDrawSegment_segment_out ctx aMire.width aMire.layer _ _ _ hvis,
      plotDrawSegment_segment_out ctx aMire.width aMire.layer _ _ _ hvis]
    simp [List.append_assoc]
  · rw [PlotPcbTarget]
    simp only [hvis, hs, Bool.not_true, Bool.false_eq_true, if_false, if_true,
      Bool.not_false, ite_true, ite_false, setColor]
    rw [plotDrawSegment_circle_out ctx aMire.width aMire.layer aMire.pos
        (Int.tdiv aMire.size 2) _ hvis h2,
      plotDrawSegment_segment_out ctx aMire.width aMire.layer _ _ _ hvis,
      plotDrawSegment_segment_out ctx aMire.width aMire.layer _ _ _ hvis]
    simp [List.append_assoc]
    omega

/-- Witness for C8, at the spec example with the shape flag unset and
size = 30: circle radius 10 (diameter 20) and plus arms of half-length
15. -/
theorem pcb_target_decomposition_witness :
    ctxW.layerMask mireW.layer = true ∧ (0 : ℤ) ≤ mireW.size ∧
    (PlotPcbTarget ctxW mireW plW).out =
      [PlotPrim.thickCircle (0, 0) 20 4,
       PlotPrim.thickSegment (-15, 0) (15, 0) 4,
       PlotPrim.thickSegment (0, -15) (0, 15) 4] :=
  ⟨rfl, by decide,
    (pcb_target_decomposition ctxW mireW plW rfl (by decide)).trans (by decide)⟩

/-- Counterexample for C9 as stated: plotting a one-point footprint-edge
polygon emits no primitive, but it does NOT leave the plotter state
unchanged: the current colour has already been set to the resolved layer
colour before the degenerate polygon is dropped. -/
theorem edge_polygon_singleton_not_state_preserving :
    (Plot1EdgeModule ctx9 edge9 plW).out = plW.out ∧
    Plot1EdgeModule ctx9 edge9 plW ≠ plW := by
  decide

/-- C9 (amended): a footprint-edge polygon with one point or fewer emits
no primitive and surfaces no error, and the only plotter-state effect is
the colour already set (to the edge layer's resolved colour) before the
degenerate-polygon check; the GAL polyline chain path (drawPoly on a
SHAPE_LINE_CHAIN of fewer than two points) returns with the drawing
state fully unchanged. -/
theorem edge_polygon_degenerate_skip (ctx : BRD_CTX) (aEdge : EDGE_MODULE)
    (pl : PLOTTER) (hshape : aEdge.shape = EdgeShapeT.polygon)
    (hlen : aEdge.polyPoints.length ≤ 1) :
    Plot1EdgeModule ctx aEdge pl = setColor pl (getColor ctx aEdge.layer) ∧
    (Plot1EdgeModule ctx aEdge pl).out = pl.out ∧
    (∀ (pts : List (Int × Int)) (closed : Bool) (s : Cairo.CAIRO_GAL),
      pts.length < 2 → Cairo.drawPolyChain pts closed s = s) := by
  refine ⟨?_, ?_, ?_⟩
  · simp [Plot1EdgeModule, hshape, hlen]
  · simp [Plot1EdgeModule, hshape, hlen, setColor]
  · intro pts closed s h
    simp [Cairo.drawPolyChain, h]

/-- Witness for the amended C9. -/
theorem edge_polygon_degenerate_skip_witness :
    edgeW.shape = EdgeShapeT.polygon ∧ edgeW.polyPoints.length ≤ 1 ∧
    Plot1EdgeModule ctxW edgeW plW = setColor plW (getColor ctxW edgeW.layer) :=
  ⟨rfl, by decide, (edge_polygon_degenerate_skip ctxW edgeW plW rfl (by decide)).1⟩

namespace Cairo

@[simp] theorem emitOp_ctxXform (s : CAIRO_GAL) (k : RKind) :
    (emitOp s k).ctxXform = s.ctxXform := rfl

@[simp] theorem emitOp_ctxSource (s : CAIRO_GAL) (k : RKind) :
    (emitOp s k).ctxSource = s.ctxSource := rfl

@[simp] theorem emitOp_ctxLineWidth (s : CAIRO_GAL) (k : RKind) :
    (emitOp s k).ctxLineWidth = s.ctxLineWidth := rfl

@[simp] theorem emitOp_ctxSaveStack (s : CAIRO_GAL) (k : RKind) :
    (emitOp s k).ctxSaveStack = s.ctxSaveStack := rfl

@[simp] theorem emitOp_fillColor (s : CAIRO_GAL) (k : RKind) :
    (emitOp s k).fillColor = s.fillColor := rfl

@[simp] theorem emitOp_strokeColor (s : CAIRO_GAL) (k : RKind) :
    (emitOp s k).strokeColor = s.strokeColor := rfl

@[simp] theorem emitOp_compositorBuffer (s : CAIRO_GAL) (k : RKind) :
    (emitOp s k).compositorBuffer = s.compositorBuffer := rfl

@[simp] theorem emitOp_currentGroupKey (s : CAIRO_GAL) (k : RKind) :
    (emitOp s k).currentGroupKey = s.currentGroupKey := rfl

@[simp] theorem emitOp_currentTarget (s : CAIRO_GAL) (k : RKind) :
    (emitOp s k).currentTarget = s.currentTarget := rfl

@[simp] theorem pushGroup_ctxXform (s : CAIRO_GAL) (e : GROUP_ELEMENT) :
    (pushGroup s e).ctxXform = s.ctxXform := by
  unfold pushGroup
  cases s.currentGroupKey <;> rfl

@[simp] theorem pushGroup_ctxSource (s : CAIRO_GAL) (e : GROUP_ELEMENT) :
    (pushGroup s e).ctxSource = s.ctxSource := by
  unfold pushGroup
  cases s.currentGroupKey <;> rfl

@[simp] theorem pushGroup_ctxLineWidth (s : CAIRO_GAL) (e : GROUP_ELEMENT) :
    (pushGroup s e).ctxLineWidth = s.ctxLineWidth := by
  unfold pushGroup
  cases s.currentGroupKey <;> rfl

@[simp] theorem pushGroup_ctxSaveStack (s : CAIRO_GAL) (e : GROUP_ELEMENT) :
    (pushGroup s e).ctxSaveStack = s.ctxSaveStack := by
  unfold pushGroup
  cases s.currentGroupKey <;> rfl

@[simp] theorem pushGroup_fillColor (s : CAIRO_GAL) (e : GROUP_ELEMENT) :
    (pushGroup s e).fillColor = s.fillColor := by
  unfold pushGroup
  cases s.currentGroupKey <;> rfl

@[simp] theorem pushGroup_strokeColor (s : CAIRO_GAL) (e : GROUP_ELEMENT) :
    (pushGroup s e).strokeColor = s.strokeColor := by
  unfold pushGroup
  cases s.currentGroupKey <;> rfl

@[simp] theorem pushGroup_compositorBuffer (s : CAIRO_GAL) (e : GROUP_ELEMENT) :
    (pushGroup s e).compositorBuffer = s.compositorBuffer := by
  unfold pushGroup
  cases s.currentGroupKey <;> rfl

@[simp] theorem pushGroup_currentGroupKey (s : CAIRO_GAL) (e : GROUP_ELEMENT) :
    (pushGroup s e).currentGroupKey = s.currentGroupKey := by
  unfold pushGroup
  cases hk : s.currentGroupKey <;> simp [hk]

theorem storePath_output_layerDepth (s : CAIRO_GAL) (d : ℚ) :
    (storePath {s with layerDepth := d}).output = (storePath s).output := by
  by_cases h : s.isElementAdded = true
  · simp only [storePath, h, if_true]
    split_ifs <;> simp_all
  · simp [storePath, h]

end Cairo

/-- C1: every appearance-affecting state change (SetStrokeColor,
SetFillColor, SetLineWidth, SetLayerDepth, SetTarget) flushes the
pending path first: afterwards no element is pending and the cairo path
is empty, and everything painted by the call is exactly what storePath
paints from the pre-call state, so no queued primitive is ever rendered
under state set after it was queued. -/
theorem state_change_flushes_pending (s : Cairo.CAIRO_GAL) (c : Cairo.COLOR4D)
    (w d : ℚ) (t : Cairo.RENDER_TARGET)
    (hInit : s.isInitialized = true) (hComp : s.validCompositor = true)
    (hPend : s.isElementAdded = true) :
    ((Cairo.SetStrokeColor c s).isElementAdded = false ∧
       (Cairo.SetStrokeColor c s).ctxPath = [] ∧
       (Cairo.SetStrokeColor c s).output = (Cairo.storePath s).output) ∧
    ((Cairo.SetFillColor c s).isElementAdded = false ∧
       (Cairo.SetFillColor c s).ctxPath = [] ∧
       (Cairo.SetFillColor c s).output = (Cairo.storePath s).output) ∧
    ((Cairo.SetLineWidth w s).isElementAdded = false ∧
       (Cairo.SetLineWidth w s).ctxPath = [] ∧
       (Cairo.SetLineWidth w s).output = (Cairo.storePath s).output) ∧
    ((Cairo.SetLayerDepth d s).isElementAdded = false ∧
       (Cairo.SetLayerDepth d s).ctxPath = [] ∧
       (Cairo.SetLayerDepth d s).output = (Cairo.storePath s).output) ∧
    ((Cairo.SetTarget t s).isElementAdded = false ∧
       (Cairo.SetTarget t s).ctxPath = [] ∧
       (Cairo.SetTarget t s).output = (Cairo.storePath s).output) := by
  have hA := Cairo.storePath_isElementAdded s hPend
  have hB := Cairo.storePath_ctxPath s hPend
  have hred : Cairo.SetLayerDepth d s = Cairo.storePath {s with layerDepth := d} := by
    unfold Cairo.SetLayerDepth
    dsimp only
    rw [hInit, if_pos rfl]
  refine ⟨⟨?_, ?_, ?_⟩, ⟨?_, ?_, ?_⟩, ⟨?_, ?_, ?_⟩, ⟨?_, ?_, ?_⟩, ⟨?_, ?_, ?_⟩⟩
  · simp only [Cairo.SetStrokeColor]
    split <;> simp [hA]
  · simp only [Cairo.SetStrokeColor]
    split <;> simp [hB]
  · simp only [Cairo.SetStrokeColor]
    split <;> simp
  · simp only [Cairo.SetFillColor]
    split <;> simp [hA]
  · simp only [Cairo.SetFillColor]
    split <;> simp [hB]
  · simp only [Cairo.SetFillColor]
    split <;> simp
  · simp only [Cairo.SetLineWidth]
    split <;> simp [hA]
  · simp only [Cairo.SetLineWidth]
    split <;> simp [hB]
  · simp only [Cairo.SetLineWidth]
    split <;> simp
  · rw [hred]
    exact Cairo.storePath_isElementAdded _ hPend
  · rw [hred]
    exact Cairo.storePath_ctxPath _ hPend
  · rw [hred]
    exact Cairo.storePath_output_layerDepth s d
  · simp [Cairo.SetTarget, hComp, hInit, hA]
  · simp [Cairo.SetTarget, hComp, hInit, hB]
  · simp [Cairo.SetTarget, hComp, hInit]

/-- Witness for C1 at a concrete pending state, shown for the
SetStrokeColor conjunct. -/
theorem state_change_flushes_pending_witness :
    galW.isInitialized = true ∧ galW.validCompositor = true ∧
    galW.isElementAdded = true ∧
    ((Cairo.SetStrokeColor ⟨0, 1, 0, 1⟩ galW).isElementAdded = false ∧
     (Cairo.SetStrokeColor ⟨0, 1, 0, 1⟩ galW).ctxPath = [] ∧
     (Cairo.SetStrokeColor ⟨0, 1, 0, 1⟩ galW).output = (Cairo.storePath galW).output) :=
  ⟨rfl, rfl, rfl,
    (state_change_flushes_pending galW ⟨0, 1, 0, 1⟩ 2 3 Cairo.RENDER_TARGET.overlay
      rfl rfl rfl).1⟩

namespace Cairo

theorem tblFind_none_keys (t : GroupTable) (k : Int) (h : tblFind t k = none) :
    ∀ e ∈ t, e.1 ≠ k := by
  induction t with
  | nil =>
      intro e he
      cases he
  | cons a rest ih =>
      intro e he
      simp only [tblFind] at h
      split at h
      · cases h
      · rw [List.mem_cons] at he
        rcases he with he | he
        · subst he
          assumption
        · exact ih h e he

theorem tblErase_append_absent (t : GroupTable) (k : Int) (g : GROUP)
    (h : tblFind t k = none) :
    tblErase (t ++ [(k, g)]) k = t := by
  unfold tblErase
  rw [List.filter_append]
  have h1 : t.filter (fun e => e.1 ≠ k) = t := by
    apply List.filter_eq_self.mpr
    intro a ha
    simpa using tblFind_none_keys t k h a ha
  rw [h1]
  simp

theorem tblSet_append_absent (t : GroupTable) (k : Int) (g g2 : GROUP)
    (h : tblFind t k = none) :
    tblSet (t ++ [(k, g)]) k g2 = t ++ [(k, g2)] := by
  unfold tblSet
  rw [List.map_append]
  have h1 : t.map (fun e => if e.1 = k then (e.1, g2) else e) = t := by
    have h2 : ∀ e ∈ t, (fun e => if e.1 = k then (e.1, g2) else e) e = id e := by
      intro e he
      simp [tblFind_none_keys t k h e he]
    rw [List.map_congr_left h2, List.map_id]
  rw [h1]
  simp

end Cairo

/-- Counterexample for C7 as stated: invoking group operations on handles
that are not live groups does not fail fast — no assertion fires and the
calls return normally (DeleteGroup leaves the state exactly unchanged;
DrawGroup silently default-inserts an empty group and draws nothing). -/
theorem unknown_handle_silently_succeeds :
    Cairo.DeleteGroup 5 galQ = galQ ∧
    (Cairo.DeleteGroup 5 galQ).assertFailed = false ∧
    (Cairo.DrawGroupF 2 7 galQ).assertFailed = false ∧
    (Cairo.DrawGroupF 2 7 galQ).output = galQ.output ∧
    (Cairo.DrawGroupF 2 7 galQ).groups = [(7, [])] := by
  decide

/-- C7 (amended): a group operation on a handle that is not a live group
does not assert and is not an error: std::map::operator[]
default-inserts an empty command list, so DrawGroup replays nothing and
leaves a new empty group behind, ChangeGroupColor rewrites nothing and
leaves a new empty group behind, and DeleteGroup returns the state
unchanged; no stale or fabricated content is ever drawn. -/
theorem unknown_handle_behavior (s : Cairo.CAIRO_GAL) (h : Int) (c : Cairo.COLOR4D)
    (fuel : Nat) (hAbs : Cairo.tblFind s.groups h = none)
    (hPend : s.isElementAdded = false) :
    Cairo.DrawGroupF (fuel + 1) h s = {s with groups := s.groups ++ [(h, [])]} ∧
    Cairo.ChangeGroupColor h c s = {s with groups := s.groups ++ [(h, [])]} ∧
    Cairo.DeleteGroup h s = s := by
  have hsp : Cairo.storePath s = s := Cairo.storePath_not_pending s hPend
  have hti : Cairo.tblIndex s.groups h = ([], s.groups ++ [(h, [])]) := by
    unfold Cairo.tblIndex
    rw [hAbs]
  refine ⟨?_, ?_, ?_⟩
  · simp only [Cairo.DrawGroupF, hsp, hti]
    rw [Cairo.replayWith]
  · simp only [Cairo.ChangeGroupColor, hsp, hti]
    rw [List.map_nil, Cairo.tblSet_append_absent s.groups h [] [] hAbs]
  · simp only [Cairo.DeleteGroup, hsp, hti]
    rw [Cairo.tblErase_append_absent s.groups h [] hAbs]

/-- Witness for the amended C7 at a concrete state and handle. -/
theorem unknown_handle_behavior_witness :
    Cairo.tblFind galQ.groups 3 = none ∧ galQ.isElementAdded = false ∧
    Cairo.DeleteGroup 3 galQ = galQ :=
  ⟨rfl, rfl, (unknown_handle_behavior galQ 3 ⟨0, 0, 1, 1⟩ 0 rfl rfl).2.2⟩

/-- C6 evaluated at the failing input: with live handles {0, 2},
ClearCache iterates DeleteGroup over positions size-1..0 = 1, 0 instead
of the keys actually present, so group 2 survives and the table is not
empty afterwards. -/
theorem clear_cache_leaves_group :
    clearCacheState.groups = [(0, []), (2, [])] ∧
    (Cairo.ClearCache clearCacheState).groups = [(2, [])] := by
  decide

/-- C2 evaluated at the failing input: while grouping, DrawLine does not
defer its stroke — it paints the line immediately (conjunct 1); the
CMD_STROKE_PATH command recorded for it carries the EMPTY path, because
flushPath consumed the cairo path before storePath copied it
(conjunct 2); replaying the group therefore strokes an empty path and
reproduces nothing (conjunct 3), unlike the same DrawLine issued while
not grouping (conjunct 4). -/
theorem group_replay_loses_geometry :
    (Cairo.DrawLine (0, 0) (10, 0) (Cairo.BeginGroup galQ).1).output
      = (Cairo.BeginGroup galQ).1.output ++
        [⟨Cairo.RKind.stroke,
          [Cairo.PathElem.moveTo (0, 0), Cairo.PathElem.lineTo (10, 0)],
          [], ⟨1, 0, 0, 1⟩, 1, Cairo.CBuffer.main⟩] ∧
    Cairo.tblFind grpRec.groups 0 = some [Cairo.GROUP_ELEMENT.cmdStrokePath []] ∧
    (Cairo.DrawGroupF 2 0 grpRec).output
      = grpRec.output ++
        [⟨Cairo.RKind.stroke, [], [], ⟨1, 0, 0, 1⟩, 1, Cairo.CBuffer.main⟩] ∧
    (Cairo.DrawLine (0, 0) (10, 0) galQ).output
      = [⟨Cairo.RKind.stroke,
          [Cairo.PathElem.moveTo (0, 0), Cairo.PathElem.lineTo (10, 0)],
          [], ⟨1, 0, 0, 1⟩, 1, Cairo.CBuffer.main⟩] := by
  decide

namespace Cairo

theorem recolor_notCall (C : COLOR4D) (e : GROUP_ELEMENT) (h : notCall e = true) :
    notCall (recolorElement C e) = true := by
  cases e <;> simp_all [notCall, recolorElement]

theorem replayWith_cons_notCall (dg : Int → CAIRO_GAL → CAIRO_GAL)
    (e : GROUP_ELEMENT) (rest : List GROUP_ELEMENT) (s : CAIRO_GAL)
    (h : notCall e = true) :
    replayWith dg (e :: rest) s = replayWith dg rest (execCmd e s) := by
  cases e <;> simp_all [notCall, replayWith]

theorem execCmd_geomRel (C : COLOR4D) (e : GROUP_ELEMENT) (hnc : notCall e = true)
    (s1 s2 : CAIRO_GAL) (hrel : GeomRel s1 s2) :
    GeomRel (execCmd (recolorElement C e) s1) (execCmd e s2) := by
  obtain ⟨h1, h2, h3, h4, h5, h6, h7, h8⟩ := hrel
  cases e with
  | cmdRestore =>
      cases hs1 : s1.ctxSaveStack with
      | nil =>
          cases hs2 : s2.ctxSaveStack with
          | nil =>
              refine ⟨?_, ?_, ?_, ?_, ?_, ?_, ?_, ?_⟩ <;>
                simp [recolorElement, execCmd, hs1, hs2, h1, h2, h4, h5, h6, h7, h8]
          | cons b bs =>
              rw [hs1, hs2] at h3
              cases h3
      | cons a as =>
          cases hs2 : s2.ctxSaveStack with
          | nil =>
              rw [hs1, hs2] at h3
              cases h3
          | cons b bs =>
              rw [hs1, hs2] at h3
              simp only [List.map_cons, List.cons.injEq] at h3
              obtain ⟨hhead, htail⟩ := h3
              simp only [stackProj, Prod.mk.injEq] at hhead
              refine ⟨?_, ?_, ?_, ?_, ?_, ?_, ?_, ?_⟩ <;>
                simp [recolorElement, execCmd, hs1, hs2, hhead.1, hhead.2, htail,
                  h1, h2, h4, h5, h6, h7, h8]
  | _ =>
      refine ⟨?_, ?_, ?_, ?_, ?_, ?_, ?_, ?_⟩ <;>
        simp [recolorElement, execCmd, GeomRel, geomOf, emitOp, stackProj,
          h1, h2, h3, h4, h5, h6, h7, h8]

theorem replay_geomRel (C : COLOR4D) (l : List GROUP_ELEMENT)
    (hnc : noCallGroup l = true) (dg1 dg2 : Int → CAIRO_GAL → CAIRO_GAL)
    (s1 s2 : CAIRO_GAL) (hrel : GeomRel s1 s2) :
    GeomRel (replayWith dg1 (l.map (recolorElement C)) s1) (replayWith dg2 l s2) := by
  induction l generalizing s1 s2 with
  | nil =>
      simpa [replayWith]
  | cons e rest ih =>
      rw [List.map_cons]
      have hnc_e : notCall e = true := by
        simp [noCallGroup, List.all_cons] at hnc
        exact hnc.1
      have hnc_rest : noCallGroup rest = true := by
        simp [noCallGroup, List.all_cons] at hnc ⊢
        exact hnc.2
      rw [replayWith_cons_notCall dg1 _ _ _ (recolor_notCall C e hnc_e),
        replayWith_cons_notCall dg2 _ _ _ hnc_e]
      exact ih hnc_rest _ _ (execCmd_geomRel C e hnc_e s1 s2 hrel)

end Cairo

namespace Cairo

theorem execCmd_strokeColor_stay (C : COLOR4D) (e : GROUP_ELEMENT) (s : CAIRO_GAL)
    (h : s.strokeColor = C) :
    (execCmd (recolorElement C e) s).strokeColor = C := by
  cases e <;>
    (simp_all [execCmd, recolorElement, emitOp]
     try (cases s.ctxSaveStack with
      | nil => simp_all [execCmd]
      | cons a as => simp_all [execCmd]))

theorem execCmd_fillColor_stay (C : COLOR4D) (e : GROUP_ELEMENT) (s : CAIRO_GAL)
    (h : s.fillColor = C) :
    (execCmd (recolorElement C e) s).fillColor = C := by
  cases e <;>
    (simp_all [execCmd, recolorElement, emitOp]
     try (cases s.ctxSaveStack with
      | nil => simp_all [execCmd]
      | cons a as => simp_all [execCmd]))

theorem replay_recolored_strokeColor_stay (C : COLOR4D)
    (dg : Int → CAIRO_GAL → CAIRO_GAL) (l : List GROUP_ELEMENT)
    (hnc : noCallGroup l = true) (s : CAIRO_GAL) (h : s.strokeColor = C) :
    (replayWith dg (l.map (recolorElement C)) s).strokeColor = C := by
  induction l generalizing s with
  | nil =>
      simpa [replayWith]
  | cons e rest ih =>
      have hnc_e : notCall e = true := by
        simp [noCallGroup, List.all_cons] at hnc
        exact hnc.1
      have hnc_rest : noCallGroup rest = true := by
        simp [noCallGroup, List.all_cons] at hnc ⊢
        exact hnc.2
      rw [List.map_cons,
        replayWith_cons_notCall dg _ _ _ (recolor_notCall C e hnc_e)]
      exact ih hnc_rest _ (execCmd_strokeColor_stay C e s h)

theorem replay_recolored_fillColor_stay (C : COLOR4D)
    (dg : Int → CAIRO_GAL → CAIRO_GAL) (l : List GROUP_ELEMENT)
    (hnc : noCallGroup l = true) (s : CAIRO_GAL) (h : s.fillColor = C) :
    (replayWith dg (l.map (recolorElement C)) s).fillColor = C := by
  induction l generalizing s with
  | nil =>
      simpa [replayWith]
  | cons e rest ih =>
      have hnc_e : notCall e = true := by
        simp [noCallGroup, List.all_cons] at hnc
        exact hnc.1
      have hnc_rest : noCallGroup rest = true := by
        simp [noCallGroup, List.all_cons] at hnc ⊢
        exact hnc.2
      rw [List.map_cons,
        replayWith_cons_notCall dg _ _ _ (recolor_notCall C e hnc_e)]
      exact ih hnc_rest _ (execCmd_fillColor_stay C e s h)

theorem replay_recolored_strokeColor (C : COLOR4D)
    (dg : Int → CAIRO_GAL → CAIRO_GAL) (l : List GROUP_ELEMENT) (s : CAIRO_GAL)
    (hnc : noCallGroup l = true) (hmem : ∃ e ∈ l, isStrokeColorCmd e = true) :
    (replayWith dg (l.map (recolorElement C)) s).strokeColor = C := by
  induction l generalizing s with
  | nil =>
      obtain ⟨e, he, _⟩ := hmem
      cases he
  | cons e rest ih =>
      have hnc_e : notCall e = true := by
        simp [noCallGroup, List.all_cons] at hnc
        exact hnc.1
      have hnc_rest : noCallGroup rest = true := by
        simp [noCallGroup, List.all_cons] at hnc ⊢
        exact hnc.2
      rw [List.map_cons,
        replayWith_cons_notCall dg _ _ _ (recolor_notCall C e hnc_e)]
      by_cases hsc : isStrokeColorCmd e = true
      · have hset : (execCmd (recolorElement C e) s).strokeColor = C := by
          cases e <;> simp_all [isStrokeColorCmd, execCmd, recolorElement]
        exact replay_recolored_strokeColor_stay C dg rest hnc_rest _ hset
      · obtain ⟨e2, he2, hsc2⟩ := hmem
        rw [List.mem_cons] at he2
        rcases he2 with he2 | he2
        · subst he2
          exact absurd hsc2 hsc
        · apply ih
          all_goals first
            | exact hnc_rest
            | exact ⟨e2, he2, hsc2⟩

theorem replay_recolored_fillColor (C : COLOR4D)
    (dg : Int → CAIRO_GAL → CAIRO_GAL) (l : List GROUP_ELEMENT) (s : CAIRO_GAL)
    (hnc : noCallGroup l = true) (hmem : ∃ e ∈ l, isFillColorCmd e = true) :
    (replayWith dg (l.map (recolorElement C)) s).fillColor = C := by
  induction l generalizing s with
  | nil =>
      obtain ⟨e, he, _⟩ := hmem
      cases he
  | cons e rest ih =>
      have hnc_e : notCall e = true := by
        simp [noCallGroup, List.all_cons] at hnc
        exact hnc.1
      have hnc_rest : noCallGroup rest = true := by
        simp [noCallGroup, List.all_cons] at hnc ⊢
        exact hnc.2
      rw [List.map_cons,
        replayWith_cons_notCall dg _ _ _ (recolor_notCall C e hnc_e)]
      by_cases hsc : isFillColorCmd e = true
      · have hset : (execCmd (recolorElement C e) s).fillColor = C := by
          cases e <;> simp_all [isFillColorCmd, execCmd, recolorElement]
        exact replay_recolored_fillColor_stay C dg rest hnc_rest _ hset
      · obtain ⟨e2, he2, hsc2⟩ := hmem
        rw [List.mem_cons] at he2
        rcases he2 with he2 | he2
        · subst he2
          exact absurd hsc2 hsc
        · apply ih
          all_goals first
            | exact hnc_rest
            | exact ⟨e2, he2, hsc2⟩

theorem tblFind_tblSet_self (t : GroupTable) (k : Int) (g g2 : GROUP)
    (h : tblFind t k = some g) :
    tblFind (tblSet t k g2) k = some g2 := by
  induction t with
  | nil => cases h
  | cons a rest ih =>
      by_cases hk : a.1 = k
      · simp [tblFind, tblSet, hk]
      · have h2 : tblFind rest k = some g := by
          simpa [tblFind, hk] using h
        simpa [tblFind, tblSet, hk] using ih h2

theorem tblFind_tblSet_other (t : GroupTable) (k k2 : Int) (g2 : GROUP)
    (hne : k2 ≠ k) :
    tblFind (tblSet t k g2) k2 = tblFind t k2 := by
  induction t with
  | nil => rfl
  | cons a rest ih =>
      by_cases hk2 : a.1 = k2
      · have hk : ¬(a.1 = k) := by
          rw [hk2]
          exact hne
        simp [tblFind, tblSet, hk, hk2, hne]
      · by_cases hk : a.1 = k
        · simpa [tblFind, tblSet, hk, hk2, hne.symm] using ih
        · simpa [tblFind, tblSet, hk, hk2] using ih

end Cairo

/-- C5: ChangeGroupColor(h, C) rewrites the colour operands of every
stored set-fill-colour / set-stroke-colour command of group h to C in
place, leaves every other recorded command (in particular the stored
stroke-path / fill-path geometry, the command order, and every other
group) unchanged, and a subsequent DrawGroup(h) repaints with identical
geometry: the replayed outputs differ at most in colour, the stroke/fill
colour after any replayed prefix containing a colour command equals C,
and each replayed path command paints with (the rgb of) the then-current
colour. -/
theorem change_group_color_spec (s : Cairo.CAIRO_GAL) (h : Int) (C : Cairo.COLOR4D)
    (g : Cairo.GROUP) (hlive : Cairo.tblFind s.groups h = some g)
    (hPend : s.isElementAdded = false) (hnc : Cairo.noCallGroup g = true) :
    (Cairo.tblFind (Cairo.ChangeGroupColor h C s).groups h
        = some (g.map (Cairo.recolorElement C)) ∧
      (∀ k, k ≠ h → Cairo.tblFind (Cairo.ChangeGroupColor h C s).groups k
        = Cairo.tblFind s.groups k) ∧
      (∀ e ∈ g, Cairo.isColorCmd e = false → Cairo.recolorElement C e = e) ∧
      (∀ r gg b a, Cairo.recolorElement C (Cairo.GROUP_ELEMENT.cmdSetFillColor r gg b a)
        = Cairo.GROUP_ELEMENT.cmdSetFillColor C.r C.g C.b C.a) ∧
      (∀ r gg b a, Cairo.recolorElement C (Cairo.GROUP_ELEMENT.cmdSetStrokeColor r gg b a)
        = Cairo.GROUP_ELEMENT.cmdSetStrokeColor C.r C.g C.b C.a)) ∧
    (∀ fuel,
      ((Cairo.DrawGroupF (fuel + 1) h (Cairo.ChangeGroupColor h C s)).output).map
          Cairo.geomOf
        = ((Cairo.DrawGroupF (fuel + 1) h s).output).map Cairo.geomOf) ∧
    (∀ (dg : Int → Cairo.CAIRO_GAL → Cairo.CAIRO_GAL) (l : List Cairo.GROUP_ELEMENT)
        (st : Cairo.CAIRO_GAL), Cairo.noCallGroup l = true →
        (∃ e ∈ l, Cairo.isStrokeColorCmd e = true) →
        (Cairo.replayWith dg (l.map (Cairo.recolorElement C)) st).strokeColor = C) ∧
    (∀ (dg : Int → Cairo.CAIRO_GAL → Cairo.CAIRO_GAL) (l : List Cairo.GROUP_ELEMENT)
        (st : Cairo.CAIRO_GAL), Cairo.noCallGroup l = true →
        (∃ e ∈ l, Cairo.isFillColorCmd e = true) →
        (Cairo.replayWith dg (l.map (Cairo.recolorElement C)) st).fillColor = C) ∧
    (∀ (st : Cairo.CAIRO_GAL) (p : List Cairo.PathElem),
      (Cairo.execCmd (Cairo.GROUP_ELEMENT.cmdStrokePath p) st).output
        = st.output ++ [⟨Cairo.RKind.stroke, st.ctxPath ++ p, st.ctxXform,
            Cairo.setSourceRgb st.strokeColor, st.ctxLineWidth, st.compositorBuffer⟩] ∧
      (Cairo.execCmd (Cairo.GROUP_ELEMENT.cmdFillPath p) st).output
        = st.output ++ [⟨Cairo.RKind.fill, st.ctxPath ++ p, st.ctxXform,
            Cairo.setSourceRgb st.fillColor, st.ctxLineWidth, st.compositorBuffer⟩]) := by
  have hsp : Cairo.storePath s = s := Cairo.storePath_not_pending s hPend
  have hti : Cairo.tblIndex s.groups h = (g, s.groups) := by
    unfold Cairo.tblIndex
    rw [hlive]
  have hcgc : Cairo.ChangeGroupColor h C s
      = {s with groups := Cairo.tblSet s.groups h (g.map (Cairo.recolorElement C))} := by
    simp only [Cairo.ChangeGroupColor, hsp, hti]
  refine ⟨⟨?_, ?_, ?_, ?_, ?_⟩, ?_, ?_, ?_, ?_⟩
  · rw [hcgc]
    exact Cairo.tblFind_tblSet_self s.groups h g _ hlive
  · intro k hk
    rw [hcgc]
    exact Cairo.tblFind_tblSet_other s.groups h k _ hk
  · intro e he hc
    cases e <;> simp_all [Cairo.recolorElement, Cairo.isColorCmd,
      Cairo.isStrokeColorCmd, Cairo.isFillColorCmd]
  · intro r gg b a
    rfl
  · intro r gg b a
    rfl
  · intro fuel
    have htiL : Cairo.tblIndex
        (Cairo.tblSet s.groups h (g.map (Cairo.recolorElement C))) h
        = (g.map (Cairo.recolorElement C),
            Cairo.tblSet s.groups h (g.map (Cairo.recolorElement C))) := by
      unfold Cairo.tblIndex
      rw [Cairo.tblFind_tblSet_self s.groups h g _ hlive]
    have hpR : Cairo.storePath
        {s with groups := Cairo.tblSet s.groups h (g.map (Cairo.recolorElement C))}
        = {s with groups := Cairo.tblSet s.groups h (g.map (Cairo.recolorElement C))} :=
      Cairo.storePath_not_pending _ hPend
    have hL : Cairo.DrawGroupF (fuel + 1) h (Cairo.ChangeGroupColor h C s)
        = Cairo.replayWith (Cairo.DrawGroupF fuel) (g.map (Cairo.recolorElement C))
            {s with groups :=
              Cairo.tblSet s.groups h (g.map (Cairo.recolorElement C))} := by
      rw [hcgc]
      simp only [Cairo.DrawGroupF]
      rw [hpR]
      dsimp only
      rw [htiL]
    have hR : Cairo.DrawGroupF (fuel + 1) h s
        = Cairo.replayWith (Cairo.DrawGroupF fuel) g s := by
      simp only [Cairo.DrawGroupF]
      rw [hsp, hti]
    rw [hL, hR]
    have hrel : Cairo.GeomRel
        {s with groups := Cairo.tblSet s.groups h (g.map (Cairo.recolorElement C))} s :=
      ⟨rfl, rfl, rfl, rfl, rfl, rfl, rfl, rfl⟩
    obtain ⟨_, _, _, _, _, _, _, h8⟩ :=
      Cairo.replay_geomRel C g hnc (Cairo.DrawGroupF fuel) (Cairo.DrawGroupF fuel)
        _ _ hrel
    exact h8
  · intro dg l st hl hmem
    exact Cairo.replay_recolored_strokeColor C dg l st hl hmem
  · intro dg l st hl hmem
    exact Cairo.replay_recolored_fillColor C dg l st hl hmem
  · intro st p
    exact ⟨rfl, rfl⟩

/-- Witness for C5 at a concrete group and colour. -/
theorem change_group_color_spec_witness :
    Cairo.tblFind galG.groups 0 = some gG ∧ galG.isElementAdded = false ∧
    Cairo.noCallGroup gG = true ∧
    Cairo.tblFind (Cairo.ChangeGroupColor 0 ⟨1 / 2, 0, 0, 1⟩ galG).groups 0
      = some (gG.map (Cairo.recolorElement ⟨1 / 2, 0, 0, 1⟩)) :=
  ⟨rfl, rfl, by decide,
    (change_group_color_spec galG 0 ⟨1 / 2, 0, 0, 1⟩ gG rfl rfl (by decide)).1.1⟩
